import Mathlib

/-!
Shallow embedding of the tool-registry and routing subsystem of the
`mcps` orchestrator (src/agents/super_agent.py, src/agents/utils.py,
src/agents/config.py), together with theorems settling the claims about
its specification.

Python `dict[str, ...]` values are modelled as association lists whose
insert operation keeps the position of the first insertion of a key
(Python dict semantics); JSON values are modelled by the inductive
`JVal`; exceptions are modelled by `Except`.
-/

namespace Mcps

/-! ### Python string helpers -/

/-- Scan behind `strContains`: Python `needle in hay` for strings. -/
def strContainsGo (needle : List Char) : List Char → Bool
  | [] => needle.isEmpty
  | c :: rest => needle.isPrefixOf (c :: rest) || strContainsGo needle rest

/-- Python `needle in hay` substring test. -/
def strContains (hay needle : String) : Bool :=
  strContainsGo needle.toList hay.toList

/-- Python `s.strip()`: drop leading and trailing whitespace. -/
def pyStrip (s : String) : String :=
  String.mk (((s.toList.dropWhile Char.isWhitespace).reverse.dropWhile
    Char.isWhitespace).reverse)

/-- Accumulating scan behind `pySplitWs`; `cur` is the current word,
reversed. -/
def pySplitWsGo (cur : List Char) : List Char → List String
  | [] => if cur.isEmpty then [] else [String.mk cur.reverse]
  | c :: rest =>
    if Char.isWhitespace c then
      if cur.isEmpty then pySplitWsGo [] rest
      else String.mk cur.reverse :: pySplitWsGo [] rest
    else pySplitWsGo (c :: cur) rest

/-- Python `s.split()` with no arguments: split on whitespace runs,
dropping empty pieces. -/
def pySplitWs (s : String) : List String :=
  pySplitWsGo [] s.toList

/-! ### Configuration (src/agents/config.py, MicroAgentConfig) -/

def SUMMARIZER_URL : String := "http://localhost:8001"

def TASK_EXTRACTOR_URL : String := "http://localhost:8002"

def PLUGIN_ENDPOINTS : List String :=
  [SUMMARIZER_URL ++ "/.well-known/mcp.json",
   TASK_EXTRACTOR_URL ++ "/.well-known/mcp.json"]

/-! ### Tool manifest entries and the registry

`tool_registry : Dict[str, Dict[str, Any]]` maps a tool name to the
tool's manifest entry.  A manifest entry is modelled by its `name` and
`description` fields (the only fields the registry and router read);
`dictInsert` reproduces Python dict assignment: an existing key keeps
its position and gets the new value, a new key is appended. -/

structure Tool where
  name : String
  description : String
deriving DecidableEq, Repr

def Registry : Type := List (String × Tool)

instance : DecidableEq Registry := by
  unfold Registry
  infer_instance

/-- Python `d[k] = v` on an insertion-ordered dict. -/
def dictInsert (k : String) (v : Tool) : Registry → Registry
  | [] => [(k, v)]
  | (k', v') :: rest =>
    if k' = k then (k, v) :: rest else (k', v') :: dictInsert k v rest

/-- Python `d[k]` / `k in d` support: lookup by key. -/
def lookupRegistry (reg : Registry) (k : String) : Option Tool :=
  match reg with
  | [] => none
  | (k', v) :: rest => if k' = k then some v else lookupRegistry rest k

/-- Python `list(d.keys())`. -/
def registryKeys (reg : Registry) : List String :=
  reg.map (fun p => p.1)

/-! ### determine_sub_agent_url (src/agents/super_agent.py lines 96-111)

Routes by substring tests on the tool name; `ValueError` is modelled as
`Except.error` carrying the message. -/

def determine_sub_agent_url (tool_name : String) : Except String String :=
  if strContains tool_name "summarize" || strContains tool_name "highlight" then
    Except.ok SUMMARIZER_URL
  else if strContains tool_name "extract" || strContains tool_name "assign" then
    Except.ok TASK_EXTRACTOR_URL
  else
    Except.error ("Unknown tool type: " ++ tool_name)

/-! ### Tool selection inside `ask` (src/agents/super_agent.py lines 160-172)

The classifier's raw output is stripped, its first whitespace-delimited
token is taken (`tool_name.split()[0] if tool_name else ""`), and the
token is accepted iff it is a key of `tool_registry`; otherwise the
endpoint returns the error dict naming all registered tools. -/

/-- Python `tool_name = tool_name.strip()` followed by
`tool_name = tool_name.split()[0] if tool_name else ""`. -/
def firstToken (s : String) : String :=
  let t := pyStrip s
  if t = "" then "" else (pySplitWs t).headD ""

/-- Python `repr` of a list of strings, as interpolated by the f-string
`f"... {list(tool_registry.keys())}"`. -/
def pyStrListRepr (xs : List String) : String :=
  "[" ++ String.intercalate ", " (xs.map (fun k => "\x27" ++ k ++ "\x27")) ++ "]"

/-- The registry-validation slice of the `ask` endpoint: returns the
selected tool name, or the error message of the structured error dict. -/
def selectTool (classifierOutput : String) (reg : Registry) : Except String String :=
  let tool_name := firstToken classifierOutput
  if (lookupRegistry reg tool_name).isSome then
    Except.ok tool_name
  else
    Except.error ("Tool \x27" ++ tool_name ++
      "\x27 not found in registry. Available tools: " ++ pyStrListRepr (registryKeys reg))

/-! ### populate_tool_registry (src/agents/super_agent.py lines 78-93)

`discover` abstracts the awaited `fetch_tools_from_plugin` call for each
endpoint: `Except.ok` is a decoded manifest, `Except.error` a raised
exception, which the per-endpoint `try/except` swallows.  `clear()`
followed by the double loop is `refreshRegistry`. -/

/-- Inner loop: `for tool in tools: tool_registry[tool["name"]] = tool`. -/
def registerToolsLoop (tools : List Tool) (reg : Registry) : Registry :=
  match tools with
  | [] => reg
  | t :: rest => registerToolsLoop rest (dictInsert t.name t reg)

/-- One iteration of the endpoint loop body, with its `try/except`. -/
def stepEndpoint (discover : String → Except String (List Tool))
    (ep : String) (reg : Registry) : Registry :=
  match discover ep with
  | Except.ok tools => registerToolsLoop tools reg
  | Except.error _ => reg

/-- The endpoint loop, starting from a given registry state. -/
def populateFrom (discover : String → Except String (List Tool)) :
    List String → Registry → Registry
  | [], reg => reg
  | ep :: rest, reg => populateFrom discover rest (stepEndpoint discover ep reg)

/-- Python `tool_registry.clear()`. -/
def clearRegistry (_ : Registry) : Registry := []

/-- The body of `populate_tool_registry` as a transition on the global registry:
clear, then loop over the configured endpoints. -/
def populate_tool_registry (discover : String → Except String (List Tool))
    (endpoints : List String) (prev : Registry) : Registry :=
  populateFrom discover endpoints (clearRegistry prev)

/-- The tools a given endpoint contributes (empty on discovery failure). -/
def toolsOf (discover : String → Except String (List Tool)) (ep : String) : List Tool :=
  match discover ep with
  | Except.ok tools => tools
  | Except.error _ => []

/-- All advertised tools in provider-configuration order. -/
def allAdvertised (discover : String → Except String (List Tool)) :
    List String → List Tool
  | [] => []
  | ep :: rest => toolsOf discover ep ++ allAdvertised discover rest

/-- The last tool named `n` in a manifest list, if any. -/
def lastNamed (n : String) : List Tool → Option Tool
  | [] => none
  | t :: ts =>
    match lastNamed n ts with
    | some u => some u
    | none => if t.name = n then some t else none

/-! ### Registry lemmas -/

lemma lookup_dictInsert (reg : Registry) (k : String) (v : Tool) (n : String) :
    lookupRegistry (dictInsert k v reg) n =
      if k = n then some v else lookupRegistry reg n := by
  induction reg with
  | nil =>
    by_cases h : k = n <;> simp [dictInsert, lookupRegistry, h]
  | cons p rest ih =>
    obtain ⟨k', v'⟩ := p
    by_cases hk : k' = k
    · subst hk
      by_cases h : k' = n <;> simp [dictInsert, lookupRegistry, h]
    · by_cases h : k' = n
      · subst h
        have : ¬ (k = k') := fun hc => hk hc.symm
        simp [dictInsert, hk, lookupRegistry, this]
      · simp [dictInsert, hk, lookupRegistry, h, ih]

lemma lookup_registerToolsLoop (ts : List Tool) (reg : Registry) (n : String) :
    lookupRegistry (registerToolsLoop ts reg) n =
      match lastNamed n ts with
      | some u => some u
      | none => lookupRegistry reg n := by
  induction ts generalizing reg with
  | nil => simp [registerToolsLoop, lastNamed]
  | cons t rest ih =>
    rw [registerToolsLoop, ih, lastNamed]
    cases h : lastNamed n rest with
    | some u => simp
    | none =>
      simp only []
      rw [lookup_dictInsert]
      by_cases hn : t.name = n <;> simp [hn]

lemma lastNamed_append (n : String) (xs ys : List Tool) :
    lastNamed n (xs ++ ys) =
      match lastNamed n ys with
      | some u => some u
      | none => lastNamed n xs := by
  induction xs with
  | nil => cases h : lastNamed n ys <;> simp [lastNamed, h]
  | cons t rest ih =>
    cases h : lastNamed n ys <;> cases h' : lastNamed n rest <;>
      simp [List.cons_append, lastNamed, ih, h, h']

lemma lookup_populateFrom (discover : String → Except String (List Tool))
    (endpoints : List String) (reg : Registry) (n : String) :
    lookupRegistry (populateFrom discover endpoints reg) n =
      match lastNamed n (allAdvertised discover endpoints) with
      | some u => some u
      | none => lookupRegistry reg n := by
  induction endpoints generalizing reg with
  | nil => simp [populateFrom, allAdvertised, lastNamed]
  | cons ep rest ih =>
    rw [populateFrom, ih, allAdvertised, lastNamed_append]
    cases h : lastNamed n (allAdvertised discover rest) with
    | some u => simp
    | none =>
      simp only []
      unfold stepEndpoint toolsOf
      cases hd : discover ep with
      | ok ts => rw [lookup_registerToolsLoop]
      | error e => simp [lastNamed, registerToolsLoop]

lemma mem_keys_iff_lookup (reg : Registry) (n : String) :
    n ∈ registryKeys reg ↔ (lookupRegistry reg n).isSome := by
  induction reg with
  | nil => simp [registryKeys, lookupRegistry]
  | cons p rest ih =>
    obtain ⟨k, v⟩ := p
    have hkeys : registryKeys ((k, v) :: rest) = k :: registryKeys rest := rfl
    rw [hkeys, List.mem_cons]
    by_cases h : k = n
    · subst h
      simp [lookupRegistry]
    · have hl : lookupRegistry ((k, v) :: rest) n = lookupRegistry rest n := by
        simp [lookupRegistry, h]
      rw [hl, ← ih]
      simp [Ne.symm h]

lemma lastNamed_isSome_of_mem {ts : List Tool} {t : Tool}
    (hmem : t ∈ ts) : (lastNamed t.name ts).isSome := by
  induction ts with
  | nil => simp at hmem
  | cons u rest ih =>
    rcases List.mem_cons.mp hmem with h | h
    · subst h
      rw [lastNamed]
      cases hl : lastNamed t.name rest <;> simp
    · rw [lastNamed]
      cases hl : lastNamed t.name rest with
      | some w => simp
      | none =>
        have := ih h
        rw [hl] at this
        simp at this

lemma lastNamed_isSome_iff (n : String) (ts : List Tool) :
    (lastNamed n ts).isSome ↔ ∃ t ∈ ts, t.name = n := by
  constructor
  · intro h
    induction ts with
    | nil => simp [lastNamed] at h
    | cons u rest ih =>
      rw [lastNamed] at h
      cases hl : lastNamed n rest with
      | some w =>
        rcases ih (by rw [hl]; simp) with ⟨t, ht, hn⟩
        exact ⟨t, List.mem_cons_of_mem u ht, hn⟩
      | none =>
        rw [hl] at h
        simp only [] at h
        by_cases hu : u.name = n
        · exact ⟨u, List.mem_cons_self u rest, hu⟩
        · rw [if_neg hu] at h
          simp at h
  · rintro ⟨t, ht, rfl⟩
    exact lastNamed_isSome_of_mem ht

lemma mem_allAdvertised {discover : String → Except String (List Tool)}
    {endpoints : List String} {ep : String} {ts : List Tool} {t : Tool}
    (hep : ep ∈ endpoints) (hok : discover ep = Except.ok ts) (ht : t ∈ ts) :
    t ∈ allAdvertised discover endpoints := by
  induction endpoints with
  | nil => simp at hep
  | cons e rest ih =>
    rw [allAdvertised, List.mem_append]
    rcases List.mem_cons.mp hep with h | h
    · subst h
      left
      rw [toolsOf, hok]
      exact ht
    · exact Or.inr (ih h)

/-! ### Claim theorems on the registry side -/

/-- C1: the claim says resolving the owning provider is a direct lookup of
the tool name in the registry snapshot, failing with UnknownTool exactly
when the name is not a key.  The code's `determine_sub_agent_url` instead
routes by substring tests and never consults the registry: a registered
name without the keywords raises `ValueError`, and an unregistered name
containing a keyword resolves without failing. -/
theorem determine_sub_agent_url_ignores_registry :
    ("translate_transcript" ∈
        registryKeys (dictInsert "translate_transcript"
          ⟨"translate_transcript", "Translates the transcript."⟩ [])) ∧
    determine_sub_agent_url "translate_transcript" =
      Except.error "Unknown tool type: translate_transcript" ∧
    ("summarize_anything" ∉
        registryKeys (dictInsert "translate_transcript"
          ⟨"translate_transcript", "Translates the transcript."⟩ [])) ∧
    determine_sub_agent_url "summarize_anything" = Except.ok SUMMARIZER_URL :=
  ⟨by decide, rfl, by decide, rfl⟩

/-- C4: tool selection takes the first whitespace-delimited token of the
stripped classifier output and accepts it exactly when it is a key of the
registry; on a non-match it fails closed with an error naming the full
list of registered tool names. -/
theorem selectTool_exact_match (out : String) (reg : Registry) :
    (∀ n, selectTool out reg = Except.ok n →
      n = firstToken out ∧ n ∈ registryKeys reg) ∧
    (firstToken out ∈ registryKeys reg →
      selectTool out reg = Except.ok (firstToken out)) ∧
    (firstToken out ∉ registryKeys reg →
      selectTool out reg = Except.error ("Tool \x27" ++ firstToken out ++
        "\x27 not found in registry. Available tools: " ++
        pyStrListRepr (registryKeys reg))) := by
  refine ⟨?_, ?_, ?_⟩
  · intro n hn
    unfold selectTool at hn
    by_cases h : (lookupRegistry reg (firstToken out)).isSome
    · rw [if_pos h] at hn
      cases hn
      exact ⟨rfl, (mem_keys_iff_lookup reg (firstToken out)).mpr h⟩
    · rw [if_neg h] at hn
      cases hn
  · intro h
    unfold selectTool
    rw [if_pos ((mem_keys_iff_lookup reg (firstToken out)).mp h)]
  · intro h
    unfold selectTool
    rw [if_neg (fun hs => h ((mem_keys_iff_lookup reg (firstToken out)).mpr hs))]

theorem selectTool_exact_match_witness :
    selectTool "  summarize_transcript please"
      [("summarize_transcript", ⟨"summarize_transcript", "Summarizes."⟩)] =
      Except.ok "summarize_transcript" := by
  have h := selectTool_exact_match "  summarize_transcript please"
    [("summarize_transcript", ⟨"summarize_transcript", "Summarizes."⟩)]
  exact h.2.1 (by decide)

/-- C5: with every configured provider's discovery well formed, the
rebuilt registry's key set is the union of all advertised tool names, and
each key maps to the entry of the last advertisement of that name in
provider-configuration order (last-write-wins). -/
theorem populate_union_last_write_wins
    (discover : String → Except String (List Tool)) (endpoints : List String)
    (prev : Registry)
    (_h : ∀ ep ∈ endpoints, ∃ ts, discover ep = Except.ok ts) :
    (∀ n, n ∈ registryKeys (populate_tool_registry discover endpoints prev) ↔
      ∃ t ∈ allAdvertised discover endpoints, t.name = n) ∧
    (∀ n, lookupRegistry (populate_tool_registry discover endpoints prev) n =
      lastNamed n (allAdvertised discover endpoints)) := by
  have hlook : ∀ n,
      lookupRegistry (populate_tool_registry discover endpoints prev) n =
        lastNamed n (allAdvertised discover endpoints) := by
    intro n
    unfold populate_tool_registry clearRegistry
    rw [lookup_populateFrom]
    cases hl : lastNamed n (allAdvertised discover endpoints) <;>
      simp [lookupRegistry]
  refine ⟨?_, hlook⟩
  intro n
  rw [mem_keys_iff_lookup, hlook n, lastNamed_isSome_iff]

theorem populate_union_last_write_wins_witness :
    lookupRegistry
      (populate_tool_registry
        (fun ep => if ep = "http://a" then Except.ok [⟨"foo", "fromA"⟩]
                   else Except.ok [⟨"foo", "fromB"⟩])
        ["http://a", "http://b"] []) "foo" = some ⟨"foo", "fromB"⟩ := by
  have h := populate_union_last_write_wins
    (fun ep => if ep = "http://a" then Except.ok [⟨"foo", "fromA"⟩]
               else Except.ok [⟨"foo", "fromB"⟩])
    ["http://a", "http://b"] []
    (by
      intro ep _
      by_cases hA : ep = "http://a"
      · exact ⟨[⟨"foo", "fromA"⟩], by simp [hA]⟩
      · exact ⟨[⟨"foo", "fromB"⟩], by simp [hA]⟩)
  rw [h.2 "foo"]
  decide

/-- C7: a provider whose discovery fails contributes nothing, but every
tool advertised by a provider whose discovery succeeded ends up as a key
of the rebuilt registry. -/
theorem populate_failure_isolation
    (discover : String → Except String (List Tool)) (endpoints : List String)
    (prev : Registry) (ep : String) (ts : List Tool)
    (hep : ep ∈ endpoints) (hok : discover ep = Except.ok ts) :
    ∀ t ∈ ts, t.name ∈ registryKeys (populate_tool_registry discover endpoints prev) := by
  intro t ht
  rw [mem_keys_iff_lookup]
  unfold populate_tool_registry clearRegistry
  rw [lookup_populateFrom]
  have hmem : t ∈ allAdvertised discover endpoints := mem_allAdvertised hep hok ht
  have := lastNamed_isSome_of_mem hmem
  cases hl : lastNamed t.name (allAdvertised discover endpoints) with
  | some u => simp
  | none =>
    rw [hl] at this
    simp at this

theorem populate_failure_isolation_witness :
    "tool1" ∈ registryKeys
      (populate_tool_registry
        (fun ep => if ep = "http://good" then Except.ok [⟨"tool1", "d"⟩]
                   else Except.error "boom")
        ["http://bad", "http://good"] []) := by
  have h := populate_failure_isolation
    (fun ep => if ep = "http://good" then Except.ok [⟨"tool1", "d"⟩]
               else Except.error "boom")
    ["http://bad", "http://good"] [] "http://good" [⟨"tool1", "d"⟩]
    (by decide) (by simp)
  exact h ⟨"tool1", "d"⟩ (by decide)

/-- C8: `populate_tool_registry` first clears the registry, so running it
twice with unchanged discovery responses yields the identical association
list — same keys, same entries, same order. -/
theorem refresh_idempotent (discover : String → Except String (List Tool))
    (endpoints : List String) (prev : Registry) :
    populate_tool_registry discover endpoints
        (populate_tool_registry discover endpoints prev) =
      populate_tool_registry discover endpoints prev := rfl

/-! ### C9: registry states observable during a refresh

`populate_tool_registry` mutates the single global dict in place:
`tool_registry.clear()` runs synchronously, after which the loop suspends
at `await fetch_tools_from_plugin(endpoint)` once per endpoint.  Under
asyncio's cooperative scheduling a concurrent reader runs exactly at
those suspension points, so the registry states it can observe are: the
cleared registry (while the first fetch is in flight) and the partial
registry after each endpoint's tools were inserted (while the next fetch
is in flight), plus the final state. -/

def refreshObservableStates (discover : String → Except String (List Tool)) :
    List String → Registry → List Registry
  | [], reg => [reg]
  | ep :: rest, reg =>
    reg :: refreshObservableStates discover rest (stepEndpoint discover ep reg)

/-- The registry states a concurrent reader can observe while
`populate_tool_registry` runs, starting from the previous snapshot. -/
def refreshTrace (discover : String → Except String (List Tool))
    (endpoints : List String) (prev : Registry) : List Registry :=
  refreshObservableStates discover endpoints (clearRegistry prev)

/-- Discovery responses of the two configured providers, as advertised by
src/agents/summarizer_agent.py and src/agents/task_extractor_agent.py
(descriptions abbreviated), used as a concrete refresh scenario. -/
def steadyDiscover : String → Except String (List Tool) := fun ep =>
  if ep = "http://localhost:8001/.well-known/mcp.json" then
    Except.ok [⟨"summarize_transcript", "Summarizes a transcript."⟩,
               ⟨"highlight_key_points", "Extracts main insights."⟩]
  else
    Except.ok [⟨"extract_tasks", "Extracts tasks."⟩]

/-- C9: the claim says a concurrent reader only ever sees the old
complete snapshot or the new complete snapshot.  With the repository's
own two providers and unchanged responses, the trace of observable
states contains the cleared registry and the half-populated registry
holding only the first provider's tools — both different from the old
snapshot and from the new one, so a reader interleaved at a suspension
point observes a partially populated registry. -/
theorem refresh_not_atomic :
    ([] : Registry) ∈
      refreshTrace steadyDiscover PLUGIN_ENDPOINTS
        (populate_tool_registry steadyDiscover PLUGIN_ENDPOINTS []) ∧
    ([("summarize_transcript", ⟨"summarize_transcript", "Summarizes a transcript."⟩),
      ("highlight_key_points", ⟨"highlight_key_points", "Extracts main insights."⟩)] : Registry) ∈
      refreshTrace steadyDiscover PLUGIN_ENDPOINTS
        (populate_tool_registry steadyDiscover PLUGIN_ENDPOINTS []) ∧
    ([("summarize_transcript", ⟨"summarize_transcript", "Summarizes a transcript."⟩),
      ("highlight_key_points", ⟨"highlight_key_points", "Extracts main insights."⟩)] : Registry) ≠
      populate_tool_registry steadyDiscover PLUGIN_ENDPOINTS [] ∧
    ([] : Registry) ≠ populate_tool_registry steadyDiscover PLUGIN_ENDPOINTS [] := by
  refine ⟨?_, ?_, ?_, ?_⟩ <;> decide

/-! ### JSON values and Python evaluation helpers

`JVal` models the values produced by `response.json()`; the helpers
model the individual Python operations the source applies to them, with
`Except.error` carrying the message of the exception the operation
raises (consumed by the enclosing `try/except`). -/

inductive JVal where
  | null
  | b (x : Bool)
  | n (x : Int)
  | s (x : String)
  | arr (xs : List JVal)
  | obj (fields : List (String × JVal))
deriving Repr

/-- Python truthiness (`if value:`) of a JSON value. -/
def jvTruthy : JVal → Bool
  | .null => false
  | .b x => x
  | .n x => x ≠ 0
  | .s x => x ≠ ""
  | .arr xs => !xs.isEmpty
  | .obj fs => !fs.isEmpty

/-- First binding of a key in a JSON object (parsed JSON objects have
unique keys). -/
def lookupField : List (String × JVal) → String → Option JVal
  | [], _ => none
  | (k, v) :: rest, key => if k = key then some v else lookupField rest key

/-- Lookup with a default, as in `d.get(key, default)`. -/
def lookupFieldD (fs : List (String × JVal)) (key : String) (d : JVal) : JVal :=
  (lookupField fs key).getD d

mutual

/-- Python `repr` of a JSON value. -/
def pyRepr : JVal → String
  | .null => "None"
  | .b true => "True"
  | .b false => "False"
  | .n x => toString x
  | .s x => "\x27" ++ x ++ "\x27"
  | .arr xs => "[" ++ pyReprItems xs ++ "]"
  | .obj fs => "\x7b" ++ pyReprFields fs ++ "\x7d"

/-- Comma-separated reprs of list items. -/
def pyReprItems : List JVal → String
  | [] => ""
  | [x] => pyRepr x
  | x :: y :: rest => pyRepr x ++ ", " ++ pyReprItems (y :: rest)

/-- Comma-separated reprs of object fields. -/
def pyReprFields : List (String × JVal) → String
  | [] => ""
  | [(k, v)] => "\x27" ++ k ++ "\x27: " ++ pyRepr v
  | (k, v) :: p :: rest =>
    "\x27" ++ k ++ "\x27: " ++ pyRepr v ++ ", " ++ pyReprFields (p :: rest)

end

/-- Python `str`: identity on strings, `repr` on containers and scalars. -/
def pyStr : JVal → String
  | .s x => x
  | v => pyRepr v

/-- Python `==` between a JSON value and a string literal. -/
def jvEqStr (v : JVal) (t : String) : Bool :=
  match v with
  | .s x => x = t
  | _ => false

/-- Python `key in v`. -/
def pyContains (v : JVal) (key : String) : Except String Bool :=
  match v with
  | .obj fs => .ok (lookupField fs key).isSome
  | .arr xs => .ok (xs.any (fun x => jvEqStr x key))
  | .s x => .ok (strContains x key)
  | _ => .error "TypeError: argument of type is not iterable"

/-- Python `v.get(key, default)`. -/
def pyGet (v : JVal) (key : String) (default : JVal) : Except String JVal :=
  match v with
  | .obj fs => .ok (lookupFieldD fs key default)
  | _ => .error "AttributeError: object has no attribute get"

/-- Python `v[key]` with a string key. -/
def pyIndexKey (v : JVal) (key : String) : Except String JVal :=
  match v with
  | .obj fs =>
    match lookupField fs key with
    | some x => .ok x
    | none => .error ("KeyError: " ++ key)
  | .arr _ => .error "TypeError: list indices must be integers"
  | .s _ => .error "TypeError: string indices must be integers"
  | _ => .error "TypeError: object is not subscriptable"

/-- Python `v[0]`. -/
def pyIndexZero (v : JVal) : Except String JVal :=
  match v with
  | .arr (x :: _) => .ok x
  | .arr [] => .error "IndexError: list index out of range"
  | .s x =>
    match x.toList with
    | c :: _ => .ok (.s (String.mk [c]))
    | [] => .error "IndexError: string index out of range"
  | .obj _ => .error "KeyError: 0"
  | _ => .error "TypeError: object is not subscriptable"

/-- Python iteration (`for x in v`), yielding the items Python would. -/
def pyIter (v : JVal) : Except String (List JVal) :=
  match v with
  | .arr xs => .ok xs
  | .s x => .ok (x.toList.map (fun c => .s (String.mk [c])))
  | .obj fs => .ok (fs.map (fun p => .s p.1))
  | _ => .error "TypeError: object is not iterable"

/-- Scan behind `pyReplace`, with fuel bounding the recursion. -/
def pyReplaceGo (pat repl : List Char) : Nat → List Char → List Char
  | 0, hay => hay
  | _ + 1, [] => []
  | fuel + 1, c :: rest =>
    if pat.isPrefixOf (c :: rest) && !pat.isEmpty then
      repl ++ pyReplaceGo pat repl fuel ((c :: rest).drop pat.length)
    else
      c :: pyReplaceGo pat repl fuel rest

/-- Python `s.replace(pat, repl)` for the non-empty patterns the source
uses (`"- "`, `"_"`). -/
def pyReplace (s pat repl : String) : String :=
  String.mk (pyReplaceGo pat.toList repl.toList s.toList.length s.toList)

/-- Scan behind `pyCount`. -/
def pyCountGo (pat : List Char) : Nat → List Char → Nat
  | 0, _ => 0
  | _ + 1, [] => 0
  | fuel + 1, c :: rest =>
    if pat.isPrefixOf (c :: rest) && !pat.isEmpty then
      1 + pyCountGo pat fuel ((c :: rest).drop pat.length)
    else
      pyCountGo pat fuel rest

/-- Python `s.count(pat)` (non-overlapping) for non-empty `pat`. -/
def pyCount (s pat : String) : Nat :=
  pyCountGo pat.toList s.toList.length s.toList

/-- Character scan behind `pyTitle`; the flag records whether the
previous character was alphabetic. -/
def pyTitleGo : List Char → Bool → List Char
  | [], _ => []
  | c :: rest, prevAlpha =>
    (if c.isAlpha then (if prevAlpha then c.toLower else c.toUpper) else c) ::
      pyTitleGo rest c.isAlpha

/-- Python `s.title()` (ASCII behaviour). -/
def pyTitle (s : String) : String :=
  String.mk (pyTitleGo s.toList false)

/-! ### fetch_tools_from_plugin (src/agents/super_agent.py lines 47-75)

The outcome of the HTTP GET is made explicit: `requestError` is a raised
`httpx.RequestError` (connection failure or timeout), `statusError` a
4xx/5xx status that makes `raise_for_status()` raise, `jsonError` a
`response.json()` failure, and `success data` a decoded JSON body.  The
raised `HTTPException(status_code=500, detail=...)` is modelled by
`Except.error`. -/

inductive HttpOutcome where
  | requestError (msg : String)
  | statusError (code : Nat)
  | jsonError (msg : String)
  | success (data : JVal)

structure HTTPExc where
  status : Nat
  detail : String
deriving DecidableEq, Repr

def fetch_tools_from_plugin (endpoint : String) (outcome : HttpOutcome) :
    Except HTTPExc JVal :=
  match outcome with
  | .requestError _ =>
    .error ⟨500, "Failed to fetch tools from " ++ endpoint⟩
  | .statusError _ =>
    .error ⟨500, "Error processing response from " ++ endpoint⟩
  | .jsonError _ =>
    .error ⟨500, "Error processing response from " ++ endpoint⟩
  | .success data =>
    match data with
    | .obj fs => .ok (lookupFieldD fs "tools" (.arr []))
    | _ => .error ⟨500, "Error processing response from " ++ endpoint⟩

/-- Every outcome other than a successful fetch of a JSON object. -/
def HttpOutcome.isFailure : HttpOutcome → Bool
  | .requestError _ => true
  | .statusError _ => true
  | .jsonError _ => true
  | .success (.obj _) => false
  | .success _ => true

/-! ### Invoke-response extraction in `ask`
(src/agents/super_agent.py lines 199-210)

Builds `internal_result` from the provider's decoded invoke response;
`Except.error` is an exception caught by the `except` at line 214, which
makes the endpoint return the `"Failed to parse response"` error dict. -/

def mcpExtract (result : JVal) : Except String JVal :=
  match pyContains result "content" with
  | .error e => .error e
  | .ok hasContent =>
    if hasContent then
      match pyIndexKey result "content" with
      | .error e => .error e
      | .ok contentVal =>
        if jvTruthy contentVal then
          match pyIndexZero contentVal with
          | .error e => .error e
          | .ok mcp_content =>
            match pyGet mcp_content "type" JVal.null with
            | .error e => .error e
            | .ok ty =>
              if jvEqStr ty "text" then
                match pyIndexKey mcp_content "text" with
                | .error e => .error e
                | .ok t => .ok (.obj [("output", t)])
              else
                .ok (.obj [("output", .s (pyStr mcp_content))])
        else
          .ok result
    else
      .ok result

/-! ### format_response (src/agents/utils.py lines 103-247)

The returned dict always has the keys `type`, `title`, `content`,
`metadata`; it is modelled by `Resp`.  `jsonLoads` abstracts
`json.loads`, with `Except.error` a raised `json.JSONDecodeError`
message.  `format_response_core` is the body of the outer `try`, with
`Except.error` an exception reaching the outer `except`;
`format_response` adds that handler. -/

structure Resp where
  rtype : String
  title : String
  content : JVal
  metadata : List (String × JVal)
deriving Repr

/-- Python `f"{i}. {task}"` over `enumerate(actionable_tasks, 1)`. -/
def enumFormat (i : Nat) : List JVal → List String
  | [] => []
  | t :: rest => (toString i ++ ". " ++ pyStr t) :: enumFormat (i + 1) rest

def format_response_core (jsonLoads : String → Except String JVal)
    (tool_name : String) (result : JVal) (transcript : String) :
    Except String Resp :=
  if tool_name = "summarize_transcript" then
    match pyGet result "output" (JVal.s "") with
    | .error e => .error e
    | .ok output =>
      if !jvTruthy output then
        .ok ⟨"summary", "📋 Meeting Summary", .s "No summary generated",
          [("tool_used", .s "summarize_transcript"),
           ("transcript_length", .n transcript.length)]⟩
      else
        .ok ⟨"summary", "📋 Meeting Summary", output,
          [("tool_used", .s "summarize_transcript"),
           ("transcript_length", .n transcript.length)]⟩
  else if tool_name = "highlight_key_points" then
    match pyGet result "output" (JVal.s "") with
    | .error e => .error e
    | .ok output =>
      if !jvTruthy output then
        .ok ⟨"key_points", "🎯 Key Points & Insights", .s "No key points identified",
          [("tool_used", .s "highlight_key_points"),
           ("transcript_length", .n transcript.length),
           ("points_count", .n 0)]⟩
      else
        match output with
        | .s out =>
          .ok ⟨"key_points", "🎯 Key Points & Insights",
            .s (pyReplace out "- " "• "),
            [("tool_used", .s "highlight_key_points"),
             ("transcript_length", .n transcript.length),
             ("points_count", .n (pyCount out "-"))]⟩
        | _ => .error "AttributeError: object has no attribute replace"
  else if tool_name = "extract_tasks" then
    match pyGet result "output" (JVal.s "") with
    | .error e => .error e
    | .ok output =>
      if !jvTruthy output then
        .ok ⟨"tasks", "📝 Action Items & Tasks", .s "No tasks identified",
          [("tool_used", .s "extract_tasks"),
           ("transcript_length", .n transcript.length),
           ("tasks_count", .n 0)]⟩
      else
        match output with
        | .s out =>
          match jsonLoads out with
          | .error e =>
            .ok ⟨"tasks", "📝 Action Items & Tasks",
              .s ("Error parsing task response: " ++ e ++ "\n\nRaw output: " ++ out),
              [("tool_used", .s "extract_tasks"),
               ("transcript_length", .n transcript.length),
               ("tasks_count", .n 0)]⟩
          | .ok parsed_output =>
            match pyGet parsed_output "actionable_tasks" (JVal.arr []) with
            | .error e => .error e
            | .ok actionable_tasks =>
              if !jvTruthy actionable_tasks then
                .ok ⟨"tasks", "📝 Action Items & Tasks", .s "No tasks identified",
                  [("tool_used", .s "extract_tasks"),
                   ("transcript_length", .n transcript.length),
                   ("tasks_count", .n 0)]⟩
              else
                match pyIter actionable_tasks with
                | .error e => .error e
                | .ok ts =>
                  .ok ⟨"tasks", "📝 Action Items & Tasks",
                    .s (String.intercalate "\n" (enumFormat 1 ts)),
                    [("tool_used", .s "extract_tasks"),
                     ("transcript_length", .n transcript.length),
                     ("tasks_count", .n ts.length)]⟩
        | _ => .error "TypeError: the JSON object must be str"
  else
    .ok ⟨"unknown", "🔧 " ++ pyTitle (pyReplace tool_name "_" " "),
      .s (pyStr result),
      [("tool_used", .s tool_name),
       ("transcript_length", .n transcript.length)]⟩

def format_response (jsonLoads : String → Except String JVal)
    (tool_name : String) (result : JVal) (transcript : String) : Resp :=
  match format_response_core jsonLoads tool_name result transcript with
  | .ok r => r
  | .error e =>
    ⟨"error", "❌ Processing Error",
      .s ("An error occurred while formatting the response: " ++ e ++
        "\n\nRaw result: " ++ pyStr result),
      [("tool_used", .s tool_name),
       ("transcript_length", .n transcript.length),
       ("error", .s e)]⟩

/-! ### Claim theorems on the normalization and client side -/

/-- C2, counterexample: the claim says a task-list output that fails to
parse as JSON yields a response of category `error`.  The code's
`except json.JSONDecodeError` branch returns `"type": "tasks"`, not
`"error"` (the raw text is preserved, as the equality shows). -/
theorem format_response_parse_failure_not_error_category :
    (format_response (fun _ => Except.error "Expecting value: line 1 column 1 (char 0)")
        "extract_tasks" (JVal.obj [("output", JVal.s "not json")]) "0123456789").rtype
      = "tasks" ∧
    (format_response (fun _ => Except.error "Expecting value: line 1 column 1 (char 0)")
        "extract_tasks" (JVal.obj [("output", JVal.s "not json")]) "0123456789").rtype
      ≠ "error" ∧
    (format_response (fun _ => Except.error "Expecting value: line 1 column 1 (char 0)")
        "extract_tasks" (JVal.obj [("output", JVal.s "not json")]) "0123456789").content
      = JVal.s
        "Error parsing task response: Expecting value: line 1 column 1 (char 0)\n\nRaw output: not json" :=
  ⟨rfl, by decide, rfl⟩

/-- C2, amended: on a task-list output that fails to parse as JSON,
normalization returns category `tasks` (not `error`), with the parse
failure message and the original raw text preserved verbatim in
`content`, and a `tasks_count` of 0 — the raw output is never dropped. -/
theorem format_response_parse_failure_preserves_raw
    (jsonLoads : String → Except String JVal) (out msg transcript : String)
    (hout : out ≠ "") (hparse : jsonLoads out = Except.error msg) :
    format_response jsonLoads "extract_tasks"
        (JVal.obj [("output", JVal.s out)]) transcript =
      ⟨"tasks", "📝 Action Items & Tasks",
        .s ("Error parsing task response: " ++ msg ++ "\n\nRaw output: " ++ out),
        [("tool_used", .s "extract_tasks"),
         ("transcript_length", .n transcript.length),
         ("tasks_count", .n 0)]⟩ := by
  unfold format_response format_response_core
  simp [pyGet, lookupFieldD, lookupField, jvTruthy, hout, hparse]

theorem format_response_parse_failure_preserves_raw_witness :
    format_response (fun _ => Except.error "Expecting value") "extract_tasks"
        (JVal.obj [("output", JVal.s "oops")]) "t" =
      ⟨"tasks", "📝 Action Items & Tasks",
        .s ("Error parsing task response: " ++ "Expecting value" ++
          "\n\nRaw output: " ++ "oops"),
        [("tool_used", .s "extract_tasks"),
         ("transcript_length", .n ("t" : String).length),
         ("tasks_count", .n 0)]⟩ :=
  format_response_parse_failure_preserves_raw _ "oops" "Expecting value" "t"
    (by decide) rfl

/-- C3, counterexample: the claim says `fetch_tools_from_plugin` never
raises past its boundary and returns an empty list on failure.  On a
network failure it raises `HTTPException(500, ...)` (modelled as
`Except.error`) and does not return an empty list. -/
theorem fetch_raises_on_request_error :
    fetch_tools_from_plugin "http://localhost:8001/.well-known/mcp.json"
        (HttpOutcome.requestError "connection refused") =
      Except.error
        ⟨500, "Failed to fetch tools from http://localhost:8001/.well-known/mcp.json"⟩ ∧
    fetch_tools_from_plugin "http://localhost:8001/.well-known/mcp.json"
        (HttpOutcome.requestError "connection refused") ≠
      Except.ok (JVal.arr []) :=
  ⟨rfl, by simp [fetch_tools_from_plugin]⟩

/-- C3, amended: on network failure, timeout, HTTP error status, or
malformed payload, `fetch_tools_from_plugin` raises
`HTTPException(status_code=500)`; the enclosing `try/except` of
`populate_tool_registry` consumes the exception, so a failing endpoint
leaves the registry unchanged and the refresh continues. -/
theorem fetch_failure_raises_http_500 (endpoint : String) (outcome : HttpOutcome)
    (hfail : outcome.isFailure = true) :
    (fetch_tools_from_plugin endpoint outcome =
        Except.error ⟨500, "Failed to fetch tools from " ++ endpoint⟩ ∨
      fetch_tools_from_plugin endpoint outcome =
        Except.error ⟨500, "Error processing response from " ++ endpoint⟩) ∧
    (∀ (discover : String → Except String (List Tool)) (e : String) (reg : Registry),
      discover endpoint = Except.error e → stepEndpoint discover endpoint reg = reg) := by
  constructor
  · cases outcome with
    | requestError m => exact Or.inl rfl
    | statusError c => exact Or.inr rfl
    | jsonError m => exact Or.inr rfl
    | success d =>
      cases d with
      | obj fs => simp [HttpOutcome.isFailure] at hfail
      | null => exact Or.inr rfl
      | b x => exact Or.inr rfl
      | n x => exact Or.inr rfl
      | s x => exact Or.inr rfl
      | arr xs => exact Or.inr rfl
  · intro discover e reg hd
    simp [stepEndpoint, hd]

theorem fetch_failure_raises_http_500_witness :
    fetch_tools_from_plugin "http://e" (HttpOutcome.requestError "timeout") =
      Except.error ⟨500, "Failed to fetch tools from " ++ "http://e"⟩ := by
  have h := fetch_failure_raises_http_500 "http://e"
    (HttpOutcome.requestError "timeout") rfl
  rcases h.1 with h1 | h1
  · exact h1
  · exact absurd h1 (by simp [fetch_tools_from_plugin])

/-- C6, counterexample: the claim says any invoke response whose shape is
not `{content: [{type: "text", text: ...}]}` is treated as a
MalformedResponse error.  A first content element of non-text type is
stringified and used as the result, and a response without a `content`
key is used wholesale as the result — neither is an error. -/
theorem mcp_extract_nontext_not_error :
    mcpExtract (JVal.obj [("content",
        JVal.arr [JVal.obj [("type", JVal.s "image"), ("data", JVal.s "abc")]])]) =
      Except.ok (JVal.obj [("output",
        JVal.s "\x7b\x27type\x27: \x27image\x27, \x27data\x27: \x27abc\x27\x7d")]) ∧
    mcpExtract (JVal.obj [("foo", JVal.s "bar")]) =
      Except.ok (JVal.obj [("foo", JVal.s "bar")]) :=
  ⟨rfl, rfl⟩

/-- C6, amended: `content[0].text` is extracted exactly when the response
has a truthy `content` whose first element is a dict of type `"text"`
with a `text` key; a first element of any other type is stringified into
the output; a missing or falsy `content` makes the whole response the
internal result; and probing failures (non-dict first element, missing
`text` key) raise, producing the parse-error path. -/
theorem mcp_extract_cases (cf : List (String × JVal)) (rest : List JVal)
    (t : JVal) :
    (lookupFieldD cf "type" JVal.null = JVal.s "text" →
      lookupField cf "text" = some t →
      mcpExtract (JVal.obj [("content", JVal.arr (JVal.obj cf :: rest))]) =
        Except.ok (JVal.obj [("output", t)])) ∧
    (∀ ty, lookupFieldD cf "type" JVal.null = ty → jvEqStr ty "text" = false →
      mcpExtract (JVal.obj [("content", JVal.arr (JVal.obj cf :: rest))]) =
        Except.ok (JVal.obj [("output", JVal.s (pyStr (JVal.obj cf)))])) ∧
    (∀ fs, lookupField fs "content" = none →
      mcpExtract (JVal.obj fs) = Except.ok (JVal.obj fs)) ∧
    (mcpExtract (JVal.obj [("content", JVal.arr [])]) =
      Except.ok (JVal.obj [("content", JVal.arr [])])) ∧
    (∀ x, mcpExtract (JVal.obj [("content", JVal.arr (JVal.s x :: rest))]) =
      Except.error "AttributeError: object has no attribute get") ∧
    (lookupFieldD cf "type" JVal.null = JVal.s "text" →
      lookupField cf "text" = none →
      mcpExtract (JVal.obj [("content", JVal.arr (JVal.obj cf :: rest))]) =
        Except.error "KeyError: text") := by
  refine ⟨?_, ?_, ?_, ?_, ?_, ?_⟩
  · intro hty htext
    simp only [lookupFieldD] at hty
    simp [mcpExtract, pyContains, lookupField, pyIndexKey, pyIndexZero, pyGet,
      lookupFieldD, jvTruthy, hty, htext, jvEqStr]
  · intro ty hty hne
    simp only [lookupFieldD] at hty
    subst hty
    simp [mcpExtract, pyContains, lookupField, pyIndexKey, pyIndexZero, pyGet,
      lookupFieldD, jvTruthy, hne]
  · intro fs hfs
    simp [mcpExtract, pyContains, hfs]
  · simp [mcpExtract, pyContains, lookupField, pyIndexKey, jvTruthy]
  · intro x
    simp [mcpExtract, pyContains, lookupField, pyIndexKey, pyIndexZero, pyGet,
      jvTruthy]
  · intro hty htext
    simp only [lookupFieldD] at hty
    simp [mcpExtract, pyContains, lookupField, pyIndexKey, pyIndexZero, pyGet,
      lookupFieldD, jvTruthy, hty, htext, jvEqStr]

theorem mcp_extract_cases_witness :
    mcpExtract (JVal.obj [("content", JVal.arr [JVal.obj
        [("type", JVal.s "text"), ("text", JVal.s "Meeting covered X, Y, Z.")]])]) =
      Except.ok (JVal.obj [("output", JVal.s "Meeting covered X, Y, Z.")]) := by
  have h := mcp_extract_cases
    [("type", JVal.s "text"), ("text", JVal.s "Meeting covered X, Y, Z.")] []
    (JVal.s "Meeting covered X, Y, Z.")
  exact h.1 rfl rfl

/-- C10: normalization is total — for every tool name, result value and
transcript it returns an envelope whose category is one of the five
documented ones, and whenever the formatting body raises internally the
handler returns category `error` with the failure message and the
stringified original result in `content`. -/
theorem format_response_total_spec (jsonLoads : String → Except String JVal)
    (tool_name : String) (result : JVal) (transcript : String) :
    ((format_response jsonLoads tool_name result transcript).rtype = "summary" ∨
     (format_response jsonLoads tool_name result transcript).rtype = "key_points" ∨
     (format_response jsonLoads tool_name result transcript).rtype = "tasks" ∨
     (format_response jsonLoads tool_name result transcript).rtype = "unknown" ∨
     (format_response jsonLoads tool_name result transcript).rtype = "error") ∧
    (∀ e, format_response_core jsonLoads tool_name result transcript = Except.error e →
      format_response jsonLoads tool_name result transcript =
        ⟨"error", "❌ Processing Error",
          .s ("An error occurred while formatting the response: " ++ e ++
            "\n\nRaw result: " ++ pyStr result),
          [("tool_used", .s tool_name),
           ("transcript_length", .n transcript.length),
           ("error", .s e)]⟩) := by
  have hok : ∀ r, format_response_core jsonLoads tool_name result transcript =
      Except.ok r →
      (r.rtype = "summary" ∨ r.rtype = "key_points" ∨ r.rtype = "tasks" ∨
        r.rtype = "unknown") := by
    intro r h
    unfold format_response_core at h
    repeat' split at h
    all_goals first
      | exact Except.noConfusion h
      | (cases h; simp)
  constructor
  · cases hcore : format_response_core jsonLoads tool_name result transcript with
    | ok r =>
      have := hok r hcore
      unfold format_response
      rw [hcore]
      tauto
    | error e =>
      unfold format_response
      rw [hcore]
      tauto
  · intro e he
    unfold format_response
    rw [he]

theorem format_response_total_spec_witness :
    format_response (fun _ => Except.ok JVal.null) "highlight_key_points"
        (JVal.obj [("output", JVal.n 5)]) "t" =
      ⟨"error", "❌ Processing Error",
        .s ("An error occurred while formatting the response: " ++
          "AttributeError: object has no attribute replace" ++
          "\n\nRaw result: " ++ pyStr (JVal.obj [("output", JVal.n 5)])),
        [("tool_used", .s "highlight_key_points"),
         ("transcript_length", .n ("t" : String).length),
         ("error", .s "AttributeError: object has no attribute replace")]⟩ :=
  (format_response_total_spec (fun _ => Except.ok JVal.null)
    "highlight_key_points" (JVal.obj [("output", JVal.n 5)]) "t").2
    "AttributeError: object has no attribute replace" rfl

end Mcps
